import Mathlib

/-!
Verification of the detection core of the facetouchmonitor web application.

The development shallowly embeds the geometric proximity engine
(checkFaceTouch / getMinDistance), the posture classifier (checkPosture /
calculateAngle) and the dual alert state machine (handleTouchState,
startContinuousBeep / stopContinuousBeep, handlePostureState,
startPostureContinuousAlert / stopPostureContinuousAlert, stopMonitoring)
of the current implementation, together with the legacy single-camera
variant in detect.js, and proves the stated behavioural properties.

Numeric conventions: all coordinates, thresholds and settings are modelled
over the rationals.  The source compares Euclidean distances computed with
Math.sqrt against a threshold; since squaring is strictly monotone on
nonnegative reals, that comparison is embedded as a comparison of squared
distances (the predicate sqrtLt below), and the equivalence with the real
square-root comparison is proved as part of claim C1.  The transcendental
atan2-in-degrees primitive used by the posture classifier is abstracted as
an explicit function parameter, so gating and list-shape properties are
proved for every possible angle value.
-/

namespace FaceTouch

/-- A landmark point in normalized coordinates, as delivered per frame:
x, y in the unit square, z a depth-relative value. -/
structure Landmark where
  x : ℚ
  y : ℚ
  z : ℚ
deriving DecidableEq

/-- A point converted to pixel space by checkFaceTouch:
px = x * width, py = y * height, pz = z * width. -/
structure Point3 where
  x : ℚ
  y : ℚ
  z : ℚ
deriving DecidableEq

/-- Pixel-space conversion used for both face-zone points and fingertips
(source: the two object literals inside checkFaceTouch). -/
def toPixel (w h : ℚ) (lm : Landmark) : Point3 :=
  ⟨lm.x * w, lm.y * h, lm.z * w⟩

/-- The seven facial detection zones, in the fixed enumeration order used
when checkFaceTouch builds its enabledZones list. -/
inductive Zone
  | mouth
  | nose
  | leftEye
  | rightEye
  | leftCheek
  | rightCheek
  | chin
deriving DecidableEq

/-- The static FACE_REGIONS landmark index table (MediaPipe face mesh). -/
def faceRegions : Zone → List ℕ
  | Zone.mouth => [0, 13, 14, 17, 37, 39, 40, 61, 78, 80, 81, 82, 84, 87, 88, 91, 95,
      146, 178, 181, 185, 191, 267, 269, 270, 291, 308, 310, 311, 312, 314, 317, 318,
      321, 324, 375, 402, 405, 409, 415]
  | Zone.nose => [1, 2, 4, 5, 6, 19, 94, 168, 195, 197, 236, 237, 238, 239, 240, 241,
      242, 250, 456, 457, 458, 459, 460, 461, 462]
  | Zone.leftEye => [33, 7, 163, 144, 145, 153, 154, 155, 133, 173, 157, 158, 159,
      160, 161, 246]
  | Zone.rightEye => [362, 382, 381, 380, 374, 373, 390, 249, 263, 466, 388, 387,
      386, 385, 384, 398]
  | Zone.leftCheek => [117, 118, 119, 120, 121, 126, 142, 203, 206, 216, 207, 187]
  | Zone.rightCheek => [346, 347, 348, 349, 350, 355, 371, 423, 426, 436, 427, 411]
  | Zone.chin => [152, 175, 176, 148, 149, 150, 136, 169, 170, 171, 377, 378, 379,
      365, 397, 288, 361, 323]

/-- The FINGERTIPS index list: thumb, index, middle, ring, pinky. -/
def FINGERTIPS : List ℕ := [4, 8, 12, 16, 20]

/-- The per-zone enabled flags of state.settings.zones. -/
structure ZoneSettings where
  mouth : Bool
  nose : Bool
  leftEye : Bool
  rightEye : Bool
  leftCheek : Bool
  rightCheek : Bool
  chin : Bool
deriving DecidableEq

/-- The enabledZones list built at the top of checkFaceTouch: one push per
zone flag, in the fixed source order. -/
def enabledZones (zs : ZoneSettings) : List Zone :=
  (if zs.mouth then [Zone.mouth] else []) ++
  (if zs.nose then [Zone.nose] else []) ++
  (if zs.leftEye then [Zone.leftEye] else []) ++
  (if zs.rightEye then [Zone.rightEye] else []) ++
  (if zs.leftCheek then [Zone.leftCheek] else []) ++
  (if zs.rightCheek then [Zone.rightCheek] else []) ++
  (if zs.chin then [Zone.chin] else [])

/-- Lookup of the flag of a single zone in the settings. -/
def zoneEnabled (zs : ZoneSettings) : Zone → Bool
  | Zone.mouth => zs.mouth
  | Zone.nose => zs.nose
  | Zone.leftEye => zs.leftEye
  | Zone.rightEye => zs.rightEye
  | Zone.leftCheek => zs.leftCheek
  | Zone.rightCheek => zs.rightCheek
  | Zone.chin => zs.chin

/-- The touch-detection settings read by checkFaceTouch. -/
structure DetectionSettings where
  sensitivity : ℚ
  zones : ZoneSettings

/-- Pixel-space point list of one enabled zone (source: the facePoints map
built from FACE_REGIONS inside checkFaceTouch). -/
def zonePoints (face : ℕ → Landmark) (w h : ℚ) (z : Zone) : List Point3 :=
  (faceRegions z).map (fun idx => toPixel w h (face idx))

/-- One iteration of the loop body of getMinDistance, with distances kept
in squared form.  The accumulator none stands for the initial Infinity;
dist < Infinity always holds, and for finite accumulators squaring both
sides of the source comparison sqrt(dSq) < sqrt(m) preserves the order. -/
def minDistStep (point : Point3) (minDist : Option ℚ) (target : Point3) : Option ℚ :=
  let dx := point.x - target.x
  let dy := point.y - target.y
  let dSq := dx * dx + dy * dy
  match minDist with
  | none => some dSq
  | some m => if dSq < m then some dSq else some m

/-- getMinDistance of the source, returning the squared minimum distance
(none for an empty target list, where the source returns Infinity). -/
def getMinDistanceSq (point : Point3) (targets : List Point3) : Option ℚ :=
  targets.foldl (minDistStep point) none

/-- Decidable rendering of the source comparison sqrt(dSq) < t: false for
Infinity, and for a finite squared distance it requires a positive
threshold and dSq < t * t.  Claim C1 proves this extensionally equal to
comparing the real square-root distance with t. -/
def sqrtLt (dSq : Option ℚ) (t : ℚ) : Bool :=
  match dSq with
  | none => false
  | some d => decide (0 < t) && decide (d < t * t)

/-- The sensitivity-scaled distance threshold of checkFaceTouch:
baseThreshold 40 divided by sensitivity / 100. -/
def touchThreshold (sensitivity : ℚ) : ℚ :=
  40 / (sensitivity / 100)

/-- The arithmetic mean of the z values of a zone point list
(source: the avgFaceZ reduce inside checkFaceTouch). -/
def avgZ (pts : List Point3) : ℚ :=
  (pts.map Point3.z).sum / pts.length

/-- The body of the innermost loop of checkFaceTouch for one fingertip and
one zone: the proximity test minDist < threshold followed by the depth
guard zDiff < 50. -/
def acceptsTouch (sensitivity : ℚ) (tip : Point3) (pts : List Point3) : Bool :=
  if sqrtLt (getMinDistanceSq tip pts) (touchThreshold sensitivity) then
    let avgFaceZ := avgZ pts
    let zDiff := tip.z - avgFaceZ
    decide (zDiff < 50)
  else
    false

/-- checkFaceTouch.  Inputs: the settings snapshot, canvas width and
height, the optional face landmark set and the list of hand landmark sets
(landmark sets are modelled as total index functions, since the source
only ever indexes them at fixed indices).  The result pairs the returned
boolean with the value stored in state.lastTouchedZone.  The triple loop
over hands, FINGERTIPS and enabled zones returning at the first accepted
match is rendered with nested findSome? / find?. -/
def checkFaceTouch (settings : DetectionSettings) (w h : ℚ)
    (face : Option (ℕ → Landmark)) (hands : List (ℕ → Landmark)) :
    Bool × Option Zone :=
  match face with
  | none => (false, none)
  | some f =>
    if hands.isEmpty then (false, none)
    else
      let ez := enabledZones settings.zones
      if ez.isEmpty then (false, none)
      else
        match hands.findSome? (fun hand =>
            FINGERTIPS.findSome? (fun tipIdx =>
              let tip := toPixel w h (hand tipIdx)
              ez.find? (fun z =>
                acceptsTouch settings.sensitivity tip (zonePoints f w h z)))) with
        | some z => (true, some z)
        | none => (false, none)

/-- Declarative enumeration of every accepted fingertip-zone match, in the
exact loop order of checkFaceTouch: hands outer, fingertips middle, zones
inner.  Used to state the first-match property of claim C9. -/
def acceptedMatches (settings : DetectionSettings) (w h : ℚ)
    (f : ℕ → Landmark) (hands : List (ℕ → Landmark)) : List Zone :=
  hands.flatMap (fun hand =>
    FINGERTIPS.flatMap (fun tipIdx =>
      (enabledZones settings.zones).filter (fun z =>
        acceptsTouch settings.sensitivity (toPixel w h (hand tipIdx))
          (zonePoints f w h z))))

/-! Posture classifier. -/

/-- A pose landmark: normalized x, y, depth z and a visibility score. -/
structure PosePoint where
  x : ℚ
  y : ℚ
  z : ℚ
  visibility : ℚ
deriving DecidableEq

/-- A bare planar point, the argument type of calculateAngle (the source
also passes a synthetic object holding only x and y). -/
structure Point2 where
  x : ℚ
  y : ℚ
deriving DecidableEq

/-- Planar projection of a pose landmark. -/
def PosePoint.xy (p : PosePoint) : Point2 := ⟨p.x, p.y⟩

/-- Pose landmark indices used by checkPosture (POSE_LANDMARKS table). -/
def LEFT_EAR : ℕ := 7
/-- Right-ear pose landmark index. -/
def RIGHT_EAR : ℕ := 8
/-- Left-shoulder pose landmark index. -/
def LEFT_SHOULDER : ℕ := 11
/-- Right-shoulder pose landmark index. -/
def RIGHT_SHOULDER : ℕ := 12
/-- Left-hip pose landmark index. -/
def LEFT_HIP : ℕ := 23
/-- Right-hip pose landmark index. -/
def RIGHT_HIP : ℕ := 24

/-- The posture settings snapshot read by checkPosture. -/
structure PostureSettings where
  enabled : Bool
  sensitivity : ℚ
  headForwardThreshold : ℚ
  shoulderSlouchThreshold : ℚ
  spineAngleThreshold : ℚ

/-- calculateAngle of the source: the absolute angular difference, wrapped
to at most 180 degrees, between the directions B to C and B to A.  The
primitive atan2Deg abstracts atan2(dy, dx) * 180 / pi, which is
transcendental; every property proved below holds for an arbitrary
atan2Deg. -/
def calculateAngle (atan2Deg : ℚ → ℚ → ℚ) (pointA pointB pointC : Point2) : ℚ :=
  let r := atan2Deg (pointC.y - pointB.y) (pointC.x - pointB.x)
         - atan2Deg (pointA.y - pointB.y) (pointA.x - pointB.x)
  let angle := |r|
  if angle > 180 then 360 - angle else angle

/-- The side selection used by checkPosture: the point with strictly
higher visibility wins, ties go to the second (right) argument. -/
def pickByVisibility (a b : PosePoint) : PosePoint :=
  if a.visibility > b.visibility then a else b

/-- The ear chosen by checkPosture (closest to the lateral camera). -/
def chosenEar (pose : ℕ → PosePoint) : PosePoint :=
  pickByVisibility (pose LEFT_EAR) (pose RIGHT_EAR)

/-- The shoulder chosen by checkPosture. -/
def chosenShoulder (pose : ℕ → PosePoint) : PosePoint :=
  pickByVisibility (pose LEFT_SHOULDER) (pose RIGHT_SHOULDER)

/-- The hip chosen by checkPosture. -/
def chosenHip (pose : ℕ → PosePoint) : PosePoint :=
  pickByVisibility (pose LEFT_HIP) (pose RIGHT_HIP)

/-- Check 1 of checkPosture: head-forward.  Gated on the visibility of the
chosen ear and shoulder; the angle at the shoulder between a synthetic
point 0.1 above the shoulder and the ear must deviate from 90 degrees by
more than the sensitivity-scaled threshold. -/
def headForwardFlag (atan2Deg : ℚ → ℚ → ℚ) (st : PostureSettings)
    (pose : ℕ → PosePoint) : Bool :=
  let ear := chosenEar pose
  let shoulder := chosenShoulder pose
  decide (ear.visibility > 0.5) && decide (shoulder.visibility > 0.5) &&
    (let headForwardAngle := calculateAngle atan2Deg
        ⟨shoulder.x, shoulder.y - 0.1⟩ shoulder.xy ear.xy
     decide (|90 - headForwardAngle| > st.headForwardThreshold / (st.sensitivity / 100)))

/-- Check 2 of checkPosture: uneven shoulders.  Gated on both shoulder
visibilities; the absolute atan2 angle of the shoulder line from the
horizontal must exceed the scaled threshold. -/
def unevenShouldersFlag (atan2Deg : ℚ → ℚ → ℚ) (st : PostureSettings)
    (pose : ℕ → PosePoint) : Bool :=
  let leftShoulder := pose LEFT_SHOULDER
  let rightShoulder := pose RIGHT_SHOULDER
  decide (leftShoulder.visibility > 0.5) && decide (rightShoulder.visibility > 0.5) &&
    decide (|atan2Deg (rightShoulder.y - leftShoulder.y) (rightShoulder.x - leftShoulder.x)|
      > st.shoulderSlouchThreshold / (st.sensitivity / 100))

/-- Check 3 of checkPosture: spine curvature.  Gated on the chosen ear,
shoulder and hip; the ear-shoulder-hip angle must deviate from 180 degrees
by more than the scaled threshold. -/
def spineCurvedFlag (atan2Deg : ℚ → ℚ → ℚ) (st : PostureSettings)
    (pose : ℕ → PosePoint) : Bool :=
  let ear := chosenEar pose
  let shoulder := chosenShoulder pose
  let hip := chosenHip pose
  decide (ear.visibility > 0.5) && decide (shoulder.visibility > 0.5) &&
    decide (hip.visibility > 0.5) &&
    decide (|180 - calculateAngle atan2Deg ear.xy shoulder.xy hip.xy|
      > st.spineAngleThreshold / (st.sensitivity / 100))

/-- Check 4 of checkPosture: hunched shoulders.  Gated on the chosen
shoulder and hip; the shoulder must be ahead of the hip in normalized x by
more than 0.05 scaled by sensitivity. -/
def shouldersHunchedFlag (st : PostureSettings) (pose : ℕ → PosePoint) : Bool :=
  let shoulder := chosenShoulder pose
  let hip := chosenHip pose
  decide (shoulder.visibility > 0.5) && decide (hip.visibility > 0.5) &&
    decide (shoulder.x - hip.x > 0.05 / (st.sensitivity / 100))

/-- The issues array built by checkPosture: the four independent checks
push their labels in the fixed source order. -/
def checkPostureIssues (atan2Deg : ℚ → ℚ → ℚ) (st : PostureSettings)
    (pose : ℕ → PosePoint) : List String :=
  (if headForwardFlag atan2Deg st pose then ["Head forward"] else []) ++
  (if unevenShouldersFlag atan2Deg st pose then ["Uneven shoulders"] else []) ++
  (if spineCurvedFlag atan2Deg st pose then ["Spine curved"] else []) ++
  (if shouldersHunchedFlag st pose then ["Shoulders hunched"] else [])

/-- checkPosture.  The result pairs the returned boolean with the value
stored in state.currentPostureIssue (the comma-joined issue list, or none
when no landmarks are supplied, posture detection is disabled, or no check
fires). -/
def checkPosture (atan2Deg : ℚ → ℚ → ℚ) (st : PostureSettings)
    (pose : Option (ℕ → PosePoint)) : Bool × Option String :=
  match pose with
  | none => (false, none)
  | some p =>
    if !st.enabled then (false, none)
    else
      let issues := checkPostureIssues atan2Deg st p
      if issues.isEmpty then (false, none)
      else (true, some (String.intercalate ", " issues))

/-! Alert state machines of the current implementation. -/

/-- The observable alert events emitted by the two behaviours. -/
inductive AlertEvent
  | touchOnset
  | touchContinuous
  | postureOnset
  | postureContinuous
deriving DecidableEq

/-- The mutable monitoring state relevant to the alert pipeline: the
per-behaviour detection flags, edge-memory flags, repeat timer handles
(modelled as a running / not-running boolean), counters and last-event
timestamps, plus the isRunning flag and the posture enabled flag that the
posture toggle handler mutates. -/
structure MonState where
  isRunning : Bool
  postureEnabled : Bool
  isTouching : Bool
  wasTouching : Bool
  continuousBeepTimer : Bool
  touchCount : ℕ
  lastTouchTime : Option ℕ
  isBadPosture : Bool
  wasBadPosture : Bool
  postureBeepTimer : Bool
  postureAlertCount : ℕ
  lastPostureAlertTime : Option ℕ
deriving DecidableEq

/-- stopContinuousBeep: clear the touch repeat timer. -/
def stopContinuousBeep (s : MonState) : MonState :=
  { s with continuousBeepTimer := false }

/-- startContinuousBeep: clear any existing touch timer, then schedule the
repeating interval. -/
def startContinuousBeep (s : MonState) : MonState :=
  { stopContinuousBeep s with continuousBeepTimer := true }

/-- triggerAlert: increment the touch counter and record the timestamp
(the audible, visual and notification outputs are the emitted event). -/
def triggerAlert (now : ℕ) (s : MonState) : MonState :=
  { s with touchCount := s.touchCount + 1, lastTouchTime := some now }

/-- handleTouchState of the current implementation: shift the edge memory,
store the fresh detection boolean, fire the onset and start the repeat
timer on a rising edge, cancel the timer on a falling edge. -/
def handleTouchState (touchDetected : Bool) (now : ℕ) (s : MonState) :
    MonState × List AlertEvent :=
  let s1 := { s with wasTouching := s.isTouching, isTouching := touchDetected }
  if touchDetected && !s1.wasTouching then
    (startContinuousBeep (triggerAlert now s1), [AlertEvent.touchOnset])
  else if !touchDetected && s1.wasTouching then
    (stopContinuousBeep s1, [])
  else
    (s1, [])

/-- One tick of the touch repeat timer.  A tick only happens while the
interval is scheduled; the callback re-reads the current isTouching flag:
if still touching it emits a continuous alert (no counter change) and the
interval keeps running, otherwise it cancels itself. -/
def touchTimerTick (s : MonState) : MonState × List AlertEvent :=
  if s.continuousBeepTimer then
    if s.isTouching then (s, [AlertEvent.touchContinuous])
    else (stopContinuousBeep s, [])
  else
    (s, [])

/-- stopPostureContinuousAlert: clear the posture repeat timer. -/
def stopPostureContinuousAlert (s : MonState) : MonState :=
  { s with postureBeepTimer := false }

/-- startPostureContinuousAlert: clear any existing posture timer, then
schedule the repeating interval. -/
def startPostureContinuousAlert (s : MonState) : MonState :=
  { stopPostureContinuousAlert s with postureBeepTimer := true }

/-- triggerPostureAlert: increment the posture counter and record the
timestamp. -/
def triggerPostureAlert (now : ℕ) (s : MonState) : MonState :=
  { s with postureAlertCount := s.postureAlertCount + 1,
           lastPostureAlertTime := some now }

/-- handlePostureState: the posture twin of handleTouchState. -/
def handlePostureState (badPostureDetected : Bool) (now : ℕ) (s : MonState) :
    MonState × List AlertEvent :=
  let s1 := { s with wasBadPosture := s.isBadPosture,
                     isBadPosture := badPostureDetected }
  if badPostureDetected && !s1.wasBadPosture then
    (startPostureContinuousAlert (triggerPostureAlert now s1),
      [AlertEvent.postureOnset])
  else if !badPostureDetected && s1.wasBadPosture then
    (stopPostureContinuousAlert s1, [])
  else
    (s1, [])

/-- One tick of the posture repeat timer. -/
def postureTimerTick (s : MonState) : MonState × List AlertEvent :=
  if s.postureBeepTimer then
    if s.isBadPosture then (s, [AlertEvent.postureContinuous])
    else (stopPostureContinuousAlert s, [])
  else
    (s, [])

/-- stopMonitoring, restricted to the modelled state: clear isRunning,
cancel both repeat timers, and reset the posture flags.  The camera, the
canvas and the UI updates of the source act outside the modelled state;
note that the touch flags isTouching and wasTouching are left unchanged by
the source. -/
def stopMonitoring (s : MonState) : MonState :=
  let s1 := { s with isRunning := false }
  let s2 := stopContinuousBeep s1
  let s3 := stopPostureContinuousAlert s2
  { s3 with isBadPosture := false, wasBadPosture := false }

/-- The unchecked branch of the posture toggle change handler: disable the
posture setting, cancel only the posture repeat timer and reset only the
posture flags. -/
def disablePosture (s : MonState) : MonState :=
  let s1 := { s with postureEnabled := false }
  let s2 := stopPostureContinuousAlert s1
  { s2 with isBadPosture := false, wasBadPosture := false }

/-! Legacy touch alert handling of detect.js. -/

/-- The alert-relevant state of the legacy detect.js implementation, which
has a single cooldown flag instead of a repeat timer. -/
structure LegacyState where
  isTouching : Bool
  wasTouching : Bool
  alertCooldown : Bool
  touchCount : ℕ
  lastTouchTime : Option ℕ
deriving DecidableEq

/-- triggerAlert of detect.js: increment the counter, record the
timestamp, and raise the cooldown flag (a timeout clears it again after
alertCooldownMs; see legacyCooldownExpire). -/
def legacyTriggerAlert (now : ℕ) (s : LegacyState) : LegacyState :=
  { s with touchCount := s.touchCount + 1, lastTouchTime := some now,
           alertCooldown := true }

/-- handleTouchState of detect.js: the onset fires only on a rising edge
with the cooldown flag clear. -/
def legacyHandleTouchState (touchDetected : Bool) (now : ℕ) (s : LegacyState) :
    LegacyState × List AlertEvent :=
  let s1 := { s with wasTouching := s.isTouching, isTouching := touchDetected }
  if touchDetected && !s1.wasTouching && !s1.alertCooldown then
    (legacyTriggerAlert now s1, [AlertEvent.touchOnset])
  else
    (s1, [])

/-- Expiry of the legacy cooldown timeout scheduled by triggerAlert. -/
def legacyCooldownExpire (s : LegacyState) : LegacyState :=
  { s with alertCooldown := false }

/-! Concrete example inputs used by the closed parts of the claims. -/

/-- Example face landmark set: every nose-region landmark sits at
normalized x 0.6, every other landmark at x 0.2, all on the horizontal
axis at depth 0. -/
def exFace : ℕ → Landmark :=
  fun i => if (faceRegions Zone.nose).contains i then ⟨0.6, 0, 0⟩ else ⟨0.2, 0, 0⟩

/-- Example hand landmark set: every landmark at normalized x 0.5. -/
def exHand : ℕ → Landmark := fun _ => ⟨0.5, 0, 0⟩

/-- Example settings: sensitivity 100, only the mouth and nose zones
enabled. -/
def exSettings : DetectionSettings :=
  ⟨100, ⟨true, true, false, false, false, false, false⟩⟩

/-! Helper lemmas. -/

/-- Squared planar distance between two pixel-space points, matching the
dx * dx + dy * dy expression inside minDistStep. -/
def distSq (p q : Point3) : ℚ :=
  (p.x - q.x) * (p.x - q.x) + (p.y - q.y) * (p.y - q.y)

lemma foldl_minDistStep_lt (tip : Point3) (c : ℚ) :
    ∀ (pts : List Point3) (acc : Option ℚ),
      (∃ m, pts.foldl (minDistStep tip) acc = some m ∧ m < c) ↔
        ((∃ m, acc = some m ∧ m < c) ∨ ∃ p ∈ pts, distSq tip p < c) := by
  intro pts
  induction pts with
  | nil => intro acc; simp
  | cons t ts ih =>
    intro acc
    rw [List.foldl_cons, ih]
    have hstep : (∃ m, minDistStep tip acc t = some m ∧ m < c) ↔
        ((∃ m, acc = some m ∧ m < c) ∨ distSq tip t < c) := by
      cases acc with
      | none => simp [minDistStep, distSq]
      | some m =>
        simp only [minDistStep, distSq]
        split
        · rename_i hlt
          simp only [Option.some.injEq, exists_eq_left']
          constructor
          · intro h; exact Or.inr h
          · rintro (h | h)
            · exact lt_trans hlt h
            · exact h
        · rename_i hge
          push_neg at hge
          simp only [Option.some.injEq, exists_eq_left']
          constructor
          · intro h; exact Or.inl h
          · rintro (h | h)
            · exact h
            · exact lt_of_le_of_lt hge h
    rw [hstep]
    simp only [List.mem_cons]
    constructor
    · rintro (((h | h) | ⟨p, hp, hd⟩))
      · exact Or.inl h
      · exact Or.inr ⟨t, Or.inl rfl, h⟩
      · exact Or.inr ⟨p, Or.inr hp, hd⟩
    · rintro (h | ⟨p, (rfl | hp), hd⟩)
      · exact Or.inl (Or.inl h)
      · exact Or.inl (Or.inr hd)
      · exact Or.inr ⟨p, hp, hd⟩

lemma getMinDistanceSq_lt_iff (tip : Point3) (pts : List Point3) (c : ℚ) :
    (∃ m, getMinDistanceSq tip pts = some m ∧ m < c) ↔
      ∃ p ∈ pts, distSq tip p < c := by
  rw [getMinDistanceSq, foldl_minDistStep_lt]
  simp

lemma sqrtLt_eq_true_iff (d : Option ℚ) (t : ℚ) :
    sqrtLt d t = true ↔ 0 < t ∧ ∃ m, d = some m ∧ m < t * t := by
  cases d <;> simp [sqrtLt]

lemma distSq_cast (tip p : Point3) :
    ((distSq tip p : ℚ) : ℝ) =
      ((tip.x - p.x : ℚ) : ℝ) ^ 2 + ((tip.y - p.y : ℚ) : ℝ) ^ 2 := by
  simp only [distSq]
  push_cast
  ring

lemma sqrt_dist_lt_iff (tip p : Point3) (t : ℚ) (ht : 0 < t) :
    Real.sqrt (((tip.x - p.x : ℚ) : ℝ) ^ 2 + ((tip.y - p.y : ℚ) : ℝ) ^ 2) < (t : ℝ) ↔
      distSq tip p < t * t := by
  have ht' : (0 : ℝ) < (t : ℝ) := by exact_mod_cast ht
  rw [Real.sqrt_lt' ht', ← distSq_cast]
  have : ((t : ℝ)) ^ 2 = ((t * t : ℚ) : ℝ) := by push_cast; ring
  rw [this]
  exact_mod_cast Iff.rfl

/-- Claim C1: for every sensitivity s > 0, the touch distance threshold of
checkFaceTouch equals 40 / (s / 100) = 4000 / s pixel units (40 at s = 100,
20 at s = 200, 80 at s = 50), and the embedded proximity test passes
exactly when the minimum 2-D Euclidean distance from the fingertip to the
zone point list, computed with the real square root, is strictly below the
threshold (and fails when it is greater or equal). -/
theorem claim1_threshold_and_proximity :
    ∀ s : ℚ, 0 < s →
      touchThreshold s = 4000 / s ∧
      touchThreshold 100 = 40 ∧ touchThreshold 200 = 20 ∧ touchThreshold 50 = 80 ∧
      ∀ (tip : Point3) (pts : List Point3),
        (sqrtLt (getMinDistanceSq tip pts) (touchThreshold s) = true ↔
          ∃ p ∈ pts,
            Real.sqrt (((tip.x - p.x : ℚ) : ℝ) ^ 2 + ((tip.y - p.y : ℚ) : ℝ) ^ 2)
              < ((touchThreshold s : ℚ) : ℝ)) := by
  intro s hs
  have hts : touchThreshold s = 4000 / s := by
    rw [touchThreshold, div_div_eq_mul_div]
    norm_num
  have ht : 0 < touchThreshold s := by
    rw [hts]
    positivity
  refine ⟨hts, by norm_num [touchThreshold], by norm_num [touchThreshold],
    by norm_num [touchThreshold], ?_⟩
  intro tip pts
  rw [sqrtLt_eq_true_iff, getMinDistanceSq_lt_iff]
  constructor
  · rintro ⟨-, p, hp, hlt⟩
    exact ⟨p, hp, (sqrt_dist_lt_iff tip p _ ht).mpr hlt⟩
  · rintro ⟨p, hp, hlt⟩
    exact ⟨ht, p, hp, (sqrt_dist_lt_iff tip p _ ht).mp hlt⟩

/-- Fingertip used by the claim C1 witness. -/
def c1tip : Point3 := ⟨0, 0, 0⟩

/-- Zone point list used by the claim C1 witness: a single point at planar
distance 30 from c1tip. -/
def c1pts : List Point3 := [⟨30, 0, 0⟩]

/-- Witness for claim C1 at sensitivity 100. -/
theorem claim1_witness :
    (0 : ℚ) < 100 ∧
    (sqrtLt (getMinDistanceSq c1tip c1pts) (touchThreshold 100) = true ↔
      ∃ p ∈ c1pts,
        Real.sqrt (((c1tip.x - p.x : ℚ) : ℝ) ^ 2 + ((c1tip.y - p.y : ℚ) : ℝ) ^ 2)
          < ((touchThreshold 100 : ℚ) : ℝ)) :=
  ⟨by norm_num,
   (claim1_threshold_and_proximity 100 (by norm_num)).2.2.2.2 c1tip c1pts⟩

/-- Claim C2: whenever the proximity test passes for a fingertip and a
zone point list, the inner loop of checkFaceTouch accepts the touch if and
only if zDiff, the fingertip z minus the mean z of the zone points, is
strictly below 50; in particular a fingertip at planar distance 10 with
zDiff 60 at sensitivity 100 is not accepted although the proximity test
passes. -/
theorem claim2_depth_guard :
    (∀ (s : ℚ) (tip : Point3) (pts : List Point3),
        sqrtLt (getMinDistanceSq tip pts) (touchThreshold s) = true →
          (acceptsTouch s tip pts = true ↔ tip.z - avgZ pts < 50)) ∧
    sqrtLt (getMinDistanceSq ⟨0, 0, 60⟩ [⟨10, 0, 0⟩]) (touchThreshold 100) = true ∧
    acceptsTouch 100 ⟨0, 0, 60⟩ [⟨10, 0, 0⟩] = false := by
  refine ⟨?_,
    by norm_num [sqrtLt, getMinDistanceSq, minDistStep, touchThreshold],
    by norm_num [acceptsTouch, sqrtLt, getMinDistanceSq, minDistStep,
      touchThreshold, avgZ]⟩
  intro s tip pts h
  simp [acceptsTouch, h]

/-- Fingertip used by the claim C2 witness (same depth as the zone). -/
def c2tip : Point3 := ⟨0, 0, 0⟩

/-- Zone point list used by the claim C2 witness. -/
def c2pts : List Point3 := [⟨10, 0, 0⟩]

/-- Witness for claim C2: at distance 10 and sensitivity 100 the proximity
test passes, and acceptance is equivalent to the depth guard. -/
theorem claim2_witness :
    sqrtLt (getMinDistanceSq c2tip c2pts) (touchThreshold 100) = true ∧
    (acceptsTouch 100 c2tip c2pts = true ↔ c2tip.z - avgZ c2pts < 50) :=
  ⟨by norm_num [sqrtLt, getMinDistanceSq, minDistStep, touchThreshold, c2tip, c2pts],
   claim2_depth_guard.1 100 c2tip c2pts
     (by norm_num [sqrtLt, getMinDistanceSq, minDistStep, touchThreshold, c2tip, c2pts])⟩

/-- Claim C3, amended: in the current implementation a rising edge of the
per-frame detection boolean always fires exactly one onset alert for each
behaviour, incrementing its counter by one and recording the timestamp,
with no cooldown condition on the onset, and timer ticks never change the
counters; in the legacy detect.js implementation the touch onset fires on
a rising edge only while the alertCooldown flag is clear. -/
theorem claim3_rising_edge_onset :
    (∀ (s : MonState) (now : ℕ), s.isTouching = false →
        (handleTouchState true now s).2 = [AlertEvent.touchOnset] ∧
        ((handleTouchState true now s).1).touchCount = s.touchCount + 1 ∧
        ((handleTouchState true now s).1).lastTouchTime = some now) ∧
    (∀ (s : MonState) (now : ℕ), s.isBadPosture = false →
        (handlePostureState true now s).2 = [AlertEvent.postureOnset] ∧
        ((handlePostureState true now s).1).postureAlertCount = s.postureAlertCount + 1 ∧
        ((handlePostureState true now s).1).lastPostureAlertTime = some now) ∧
    (∀ s : MonState,
        ((touchTimerTick s).1).touchCount = s.touchCount ∧
        ((postureTimerTick s).1).postureAlertCount = s.postureAlertCount) ∧
    (∀ (s : LegacyState) (now : ℕ), s.isTouching = false → s.alertCooldown = false →
        (legacyHandleTouchState true now s).2 = [AlertEvent.touchOnset] ∧
        ((legacyHandleTouchState true now s).1).touchCount = s.touchCount + 1) := by
  refine ⟨?_, ?_, ?_, ?_⟩
  · intro s now h
    simp [handleTouchState, h, triggerAlert, startContinuousBeep, stopContinuousBeep]
  · intro s now h
    simp [handlePostureState, h, triggerPostureAlert, startPostureContinuousAlert,
      stopPostureContinuousAlert]
  · intro s
    refine ⟨?_, ?_⟩
    · simp only [touchTimerTick]
      split
      · split <;> rfl
      · rfl
    · simp only [postureTimerTick]
      split
      · split <;> rfl
      · rfl
  · intro s now h hc
    simp [legacyHandleTouchState, h, hc, legacyTriggerAlert]

/-- Counterexample to claim C3 as stated: in the legacy detect.js
implementation a rising edge of the detection boolean arriving while the
alertCooldown flag is still set fires no onset alert and leaves the touch
counter unchanged. -/
theorem claim3_counterexample :
    (⟨false, false, true, 0, none⟩ : LegacyState).isTouching = false ∧
    (legacyHandleTouchState true 5 ⟨false, false, true, 0, none⟩).2 = [] ∧
    ((legacyHandleTouchState true 5 ⟨false, false, true, 0, none⟩).1).touchCount = 0 := by
  refine ⟨rfl, ?_, ?_⟩ <;> simp [legacyHandleTouchState]

/-- Concrete idle monitoring state used by the claim C3 and C4 witnesses
and claim C5 counterexample. -/
def idleMonState : MonState :=
  ⟨true, true, false, false, false, 0, none, false, false, false, 0, none⟩

/-- Witness for claim C3 at a concrete idle state. -/
theorem claim3_witness :
    (handleTouchState true 7 idleMonState).2 = [AlertEvent.touchOnset] ∧
    ((handleTouchState true 7 idleMonState).1).touchCount = idleMonState.touchCount + 1 ∧
    ((handleTouchState true 7 idleMonState).1).lastTouchTime = some 7 :=
  claim3_rising_edge_onset.1 idleMonState 7 rfl

/-- Claim C4: while a repeat timer is scheduled, a tick re-reads the
current detection boolean: if it is true the tick emits exactly one
continuous alert and the timer keeps running, if it is false the timer
cancels itself; and a detection signal that goes true and then false
before the first tick yields exactly one onset event, zero continuous
events, and an idle machine (detection flag false, timer cancelled), for
both behaviours. -/
theorem claim4_timer_recheck :
    (∀ s : MonState, s.continuousBeepTimer = true →
        (s.isTouching = true → touchTimerTick s = (s, [AlertEvent.touchContinuous])) ∧
        (s.isTouching = false →
          touchTimerTick s = (stopContinuousBeep s, []) ∧
          (stopContinuousBeep s).continuousBeepTimer = false)) ∧
    (∀ s : MonState, s.postureBeepTimer = true →
        (s.isBadPosture = true → postureTimerTick s = (s, [AlertEvent.postureContinuous])) ∧
        (s.isBadPosture = false →
          postureTimerTick s = (stopPostureContinuousAlert s, []) ∧
          (stopPostureContinuousAlert s).postureBeepTimer = false)) ∧
    (∀ (s : MonState) (t1 t2 : ℕ), s.isTouching = false →
        (handleTouchState true t1 s).2 = [AlertEvent.touchOnset] ∧
        (handleTouchState false t2 (handleTouchState true t1 s).1).2 = [] ∧
        ((handleTouchState false t2 (handleTouchState true t1 s).1).1).isTouching = false ∧
        ((handleTouchState false t2 (handleTouchState true t1 s).1).1).continuousBeepTimer
          = false ∧
        ((handleTouchState false t2 (handleTouchState true t1 s).1).1).touchCount
          = s.touchCount + 1) ∧
    (∀ (s : MonState) (t1 t2 : ℕ), s.isBadPosture = false →
        (handlePostureState true t1 s).2 = [AlertEvent.postureOnset] ∧
        (handlePostureState false t2 (handlePostureState true t1 s).1).2 = [] ∧
        ((handlePostureState false t2 (handlePostureState true t1 s).1).1).isBadPosture
          = false ∧
        ((handlePostureState false t2 (handlePostureState true t1 s).1).1).postureBeepTimer
          = false ∧
        ((handlePostureState false t2 (handlePostureState true t1 s).1).1).postureAlertCount
          = s.postureAlertCount + 1) := by
  refine ⟨?_, ?_, ?_, ?_⟩
  · intro s ht
    constructor
    · intro h; simp [touchTimerTick, ht, h]
    · intro h; simp [touchTimerTick, ht, h, stopContinuousBeep]
  · intro s ht
    constructor
    · intro h; simp [postureTimerTick, ht, h]
    · intro h; simp [postureTimerTick, ht, h, stopPostureContinuousAlert]
  · intro s t1 t2 h
    simp [handleTouchState, h, triggerAlert, startContinuousBeep, stopContinuousBeep]
  · intro s t1 t2 h
    simp [handlePostureState, h, triggerPostureAlert, startPostureContinuousAlert,
      stopPostureContinuousAlert]

/-- Concrete active state used by the claim C4 witness: touching, with the
touch repeat timer scheduled. -/
def activeMonState : MonState :=
  ⟨true, true, true, true, true, 1, some 3, false, false, false, 0, none⟩

/-- Witness for claim C4: a tick in the active state emits one continuous
alert, and the rise-then-fall pulse from the idle state yields one onset,
no continuous event and an idle machine. -/
theorem claim4_witness :
    touchTimerTick activeMonState = (activeMonState, [AlertEvent.touchContinuous]) ∧
    (handleTouchState true 1 idleMonState).2 = [AlertEvent.touchOnset] ∧
    (handleTouchState false 2 (handleTouchState true 1 idleMonState).1).2 = [] ∧
    ((handleTouchState false 2 (handleTouchState true 1 idleMonState).1).1).isTouching
      = false ∧
    ((handleTouchState false 2 (handleTouchState true 1 idleMonState).1).1).continuousBeepTimer
      = false :=
  ⟨(claim4_timer_recheck.1 activeMonState rfl).1 rfl,
   (claim4_timer_recheck.2.2.1 idleMonState 1 2 rfl).1,
   (claim4_timer_recheck.2.2.1 idleMonState 1 2 rfl).2.1,
   (claim4_timer_recheck.2.2.1 idleMonState 1 2 rfl).2.2.1,
   (claim4_timer_recheck.2.2.1 idleMonState 1 2 rfl).2.2.2.1⟩

/-- Counterexample to claim C5 as stated: stopping monitoring from a state
in which a touch is in progress leaves the touch flags isTouching and
wasTouching set; the source resets only the posture flags. -/
theorem claim5_counterexample :
    (stopMonitoring ⟨true, true, true, true, true, 3, some 9, true, true, true, 2, some 4⟩).isTouching
      = true ∧
    (stopMonitoring ⟨true, true, true, true, true, 3, some 9, true, true, true, 2, some 4⟩).wasTouching
      = true := by
  constructor <;> rfl

/-- Claim C5, amended: stopping monitoring cancels both repeat timers and
resets the posture flags to false, while leaving the touch flags
isTouching and wasTouching (and the counters) unchanged; disabling
posture detection cancels only the posture timer and resets only the
posture flags, leaving the touch timer and touch flags unchanged. -/
theorem claim5_stop_and_disable :
    (∀ s : MonState,
        (stopMonitoring s).isRunning = false ∧
        (stopMonitoring s).continuousBeepTimer = false ∧
        (stopMonitoring s).postureBeepTimer = false ∧
        (stopMonitoring s).isBadPosture = false ∧
        (stopMonitoring s).wasBadPosture = false ∧
        (stopMonitoring s).isTouching = s.isTouching ∧
        (stopMonitoring s).wasTouching = s.wasTouching ∧
        (stopMonitoring s).touchCount = s.touchCount ∧
        (stopMonitoring s).postureAlertCount = s.postureAlertCount) ∧
    (∀ s : MonState,
        (disablePosture s).postureEnabled = false ∧
        (disablePosture s).postureBeepTimer = false ∧
        (disablePosture s).isBadPosture = false ∧
        (disablePosture s).wasBadPosture = false ∧
        (disablePosture s).continuousBeepTimer = s.continuousBeepTimer ∧
        (disablePosture s).isTouching = s.isTouching ∧
        (disablePosture s).wasTouching = s.wasTouching ∧
        (disablePosture s).touchCount = s.touchCount) :=
  ⟨fun _ => ⟨rfl, rfl, rfl, rfl, rfl, rfl, rfl, rfl, rfl⟩,
   fun _ => ⟨rfl, rfl, rfl, rfl, rfl, rfl, rfl, rfl⟩⟩

/-! Posture claims. -/

lemma mem_ite_singleton {α : Type} {c : Prop} [Decidable c] {a b : α} :
    (a ∈ if c then [b] else []) ↔ c ∧ a = b := by
  split <;> simp_all

lemma mem_checkPostureIssues (a : ℚ → ℚ → ℚ) (st : PostureSettings)
    (p : ℕ → PosePoint) (x : String) :
    x ∈ checkPostureIssues a st p ↔
      (headForwardFlag a st p = true ∧ x = "Head forward") ∨
      (unevenShouldersFlag a st p = true ∧ x = "Uneven shoulders") ∨
      (spineCurvedFlag a st p = true ∧ x = "Spine curved") ∨
      (shouldersHunchedFlag st p = true ∧ x = "Shoulders hunched") := by
  simp only [checkPostureIssues, List.mem_append, mem_ite_singleton]
  tauto

lemma headForwardFlag_eq_true (a : ℚ → ℚ → ℚ) (st : PostureSettings)
    (p : ℕ → PosePoint) :
    headForwardFlag a st p = true ↔
      (chosenEar p).visibility > 0.5 ∧ (chosenShoulder p).visibility > 0.5 ∧
      |90 - calculateAngle a ⟨(chosenShoulder p).x, (chosenShoulder p).y - 0.1⟩
          (chosenShoulder p).xy (chosenEar p).xy|
        > st.headForwardThreshold / (st.sensitivity / 100) := by
  simp [headForwardFlag, Bool.and_assoc, and_assoc]

lemma unevenShouldersFlag_eq_true (a : ℚ → ℚ → ℚ) (st : PostureSettings)
    (p : ℕ → PosePoint) :
    unevenShouldersFlag a st p = true ↔
      (p LEFT_SHOULDER).visibility > 0.5 ∧ (p RIGHT_SHOULDER).visibility > 0.5 ∧
      |a ((p RIGHT_SHOULDER).y - (p LEFT_SHOULDER).y)
          ((p RIGHT_SHOULDER).x - (p LEFT_SHOULDER).x)|
        > st.shoulderSlouchThreshold / (st.sensitivity / 100) := by
  simp [unevenShouldersFlag, Bool.and_assoc, and_assoc]

lemma spineCurvedFlag_eq_true (a : ℚ → ℚ → ℚ) (st : PostureSettings)
    (p : ℕ → PosePoint) :
    spineCurvedFlag a st p = true ↔
      (chosenEar p).visibility > 0.5 ∧ (chosenShoulder p).visibility > 0.5 ∧
      (chosenHip p).visibility > 0.5 ∧
      |180 - calculateAngle a (chosenEar p).xy (chosenShoulder p).xy (chosenHip p).xy|
        > st.spineAngleThreshold / (st.sensitivity / 100) := by
  simp [spineCurvedFlag, Bool.and_assoc, and_assoc]

lemma shouldersHunchedFlag_eq_true (st : PostureSettings) (p : ℕ → PosePoint) :
    shouldersHunchedFlag st p = true ↔
      (chosenShoulder p).visibility > 0.5 ∧ (chosenHip p).visibility > 0.5 ∧
      (chosenShoulder p).x - (chosenHip p).x > 0.05 / (st.sensitivity / 100) := by
  simp [shouldersHunchedFlag, Bool.and_assoc, and_assoc]

/-- Claim C6: checkPosture reports nothing when posture detection is
disabled or no pose landmarks are supplied; each of the four checks
contributes an issue only if every landmark it uses has visibility
strictly above 0.5; and a chosen ear with visibility at or below the 0.5
floor (for example 0.4) suppresses both the head-forward and the spine
checks for every possible angle value. -/
theorem claim6_posture_gating :
    (∀ (a : ℚ → ℚ → ℚ) (st : PostureSettings) (pose : Option (ℕ → PosePoint)),
        st.enabled = false → checkPosture a st pose = (false, none)) ∧
    (∀ (a : ℚ → ℚ → ℚ) (st : PostureSettings),
        checkPosture a st none = (false, none)) ∧
    (∀ (a : ℚ → ℚ → ℚ) (st : PostureSettings) (p : ℕ → PosePoint),
        ("Head forward" ∈ checkPostureIssues a st p →
          (chosenEar p).visibility > 0.5 ∧ (chosenShoulder p).visibility > 0.5) ∧
        ("Uneven shoulders" ∈ checkPostureIssues a st p →
          (p LEFT_SHOULDER).visibility > 0.5 ∧ (p RIGHT_SHOULDER).visibility > 0.5) ∧
        ("Spine curved" ∈ checkPostureIssues a st p →
          (chosenEar p).visibility > 0.5 ∧ (chosenShoulder p).visibility > 0.5 ∧
            (chosenHip p).visibility > 0.5) ∧
        ("Shoulders hunched" ∈ checkPostureIssues a st p →
          (chosenShoulder p).visibility > 0.5 ∧ (chosenHip p).visibility > 0.5)) ∧
    (∀ (a : ℚ → ℚ → ℚ) (st : PostureSettings) (p : ℕ → PosePoint),
        (chosenEar p).visibility ≤ 0.5 →
          "Head forward" ∉ checkPostureIssues a st p ∧
          "Spine curved" ∉ checkPostureIssues a st p) := by
  refine ⟨?_, ?_, ?_, ?_⟩
  · intro a st pose h
    cases pose with
    | none => rfl
    | some p => simp [checkPosture, h]
  · intro a st; rfl
  · intro a st p
    refine ⟨?_, ?_, ?_, ?_⟩ <;> intro h <;> rw [mem_checkPostureIssues] at h
    · rcases h with ⟨hf, -⟩ | ⟨-, h⟩ | ⟨-, h⟩ | ⟨-, h⟩
      · exact ⟨((headForwardFlag_eq_true a st p).mp hf).1,
          ((headForwardFlag_eq_true a st p).mp hf).2.1⟩
      all_goals simp at h
    · rcases h with ⟨-, h⟩ | ⟨hf, -⟩ | ⟨-, h⟩ | ⟨-, h⟩
      · simp at h
      · exact ⟨((unevenShouldersFlag_eq_true a st p).mp hf).1,
          ((unevenShouldersFlag_eq_true a st p).mp hf).2.1⟩
      all_goals simp at h
    · rcases h with ⟨-, h⟩ | ⟨-, h⟩ | ⟨hf, -⟩ | ⟨-, h⟩
      · simp at h
      · simp at h
      · exact ⟨((spineCurvedFlag_eq_true a st p).mp hf).1,
          ((spineCurvedFlag_eq_true a st p).mp hf).2.1,
          ((spineCurvedFlag_eq_true a st p).mp hf).2.2.1⟩
      · simp at h
    · rcases h with ⟨-, h⟩ | ⟨-, h⟩ | ⟨-, h⟩ | ⟨hf, -⟩
      · simp at h
      · simp at h
      · simp at h
      · exact ⟨((shouldersHunchedFlag_eq_true st p).mp hf).1,
          ((shouldersHunchedFlag_eq_true st p).mp hf).2.1⟩
  · intro a st p hear
    constructor
    · intro h
      rw [mem_checkPostureIssues] at h
      rcases h with ⟨hf, -⟩ | ⟨-, h⟩ | ⟨-, h⟩ | ⟨-, h⟩
      · exact absurd ((headForwardFlag_eq_true a st p).mp hf).1 (not_lt.mpr hear)
      all_goals simp at h
    · intro h
      rw [mem_checkPostureIssues] at h
      rcases h with ⟨-, h⟩ | ⟨-, h⟩ | ⟨hf, -⟩ | ⟨-, h⟩
      · simp at h
      · simp at h
      · exact absurd ((spineCurvedFlag_eq_true a st p).mp hf).1 (not_lt.mpr hear)
      · simp at h

/-- Pose landmark set for the claim C6 witness: every landmark, ears
included, has visibility 0.4. -/
def c6pose : ℕ → PosePoint := fun _ => ⟨0, 0, 0, 0.4⟩

/-- Posture settings with the default thresholds, detection enabled. -/
def c6settings : PostureSettings := ⟨true, 100, 15, 10, 15⟩

/-- Witness for claim C6: with every visibility at 0.4 the head-forward
and spine checks are suppressed for an arbitrary concrete angle oracle,
and disabling the setting or withholding landmarks yields no detection. -/
theorem claim6_witness :
    checkPosture (fun _ _ => 45) ⟨false, 100, 15, 10, 15⟩ (some c6pose) = (false, none) ∧
    checkPosture (fun _ _ => 45) c6settings none = (false, none) ∧
    "Head forward" ∉ checkPostureIssues (fun _ _ => 45) c6settings c6pose ∧
    "Spine curved" ∉ checkPostureIssues (fun _ _ => 45) c6settings c6pose :=
  ⟨claim6_posture_gating.1 (fun _ _ => 45) ⟨false, 100, 15, 10, 15⟩ (some c6pose) rfl,
   claim6_posture_gating.2.1 (fun _ _ => 45) c6settings,
   (claim6_posture_gating.2.2.2 (fun _ _ => 45) c6settings c6pose
     (by norm_num [chosenEar, pickByVisibility, c6pose, LEFT_EAR, RIGHT_EAR])).1,
   (claim6_posture_gating.2.2.2 (fun _ _ => 45) c6settings c6pose
     (by norm_num [chosenEar, pickByVisibility, c6pose, LEFT_EAR, RIGHT_EAR])).2⟩

/-- Claim C7: the four posture checks are evaluated independently with no
early exit; the issue list is always a sublist of the fixed order
head-forward, uneven shoulders, spine curved, shoulders hunched; each
label is present exactly when its check fires; when all four fire the
list is the full four-element list; and, with detection enabled,
checkPosture reports bad posture exactly when the list is non-empty. -/
theorem claim7_issue_list_shape :
    (∀ (a : ℚ → ℚ → ℚ) (st : PostureSettings) (p : ℕ → PosePoint),
        List.Sublist (checkPostureIssues a st p)
          ["Head forward", "Uneven shoulders", "Spine curved", "Shoulders hunched"]) ∧
    (∀ (a : ℚ → ℚ → ℚ) (st : PostureSettings) (p : ℕ → PosePoint),
        ("Head forward" ∈ checkPostureIssues a st p ↔ headForwardFlag a st p = true) ∧
        ("Uneven shoulders" ∈ checkPostureIssues a st p ↔
          unevenShouldersFlag a st p = true) ∧
        ("Spine curved" ∈ checkPostureIssues a st p ↔ spineCurvedFlag a st p = true) ∧
        ("Shoulders hunched" ∈ checkPostureIssues a st p ↔
          shouldersHunchedFlag st p = true)) ∧
    (∀ (a : ℚ → ℚ → ℚ) (st : PostureSettings) (p : ℕ → PosePoint),
        headForwardFlag a st p = true → unevenShouldersFlag a st p = true →
        spineCurvedFlag a st p = true → shouldersHunchedFlag st p = true →
        checkPostureIssues a st p =
          ["Head forward", "Uneven shoulders", "Spine curved", "Shoulders hunched"]) ∧
    (∀ (a : ℚ → ℚ → ℚ) (st : PostureSettings) (p : ℕ → PosePoint),
        st.enabled = true →
          ((checkPosture a st (some p)).1 = true ↔ checkPostureIssues a st p ≠ [])) := by
  refine ⟨?_, ?_, ?_, ?_⟩
  · intro a st p
    have h1 : List.Sublist (if headForwardFlag a st p then ["Head forward"] else [])
        ["Head forward"] := by split <;> simp
    have h2 : List.Sublist (if unevenShouldersFlag a st p then ["Uneven shoulders"] else [])
        ["Uneven shoulders"] := by split <;> simp
    have h3 : List.Sublist (if spineCurvedFlag a st p then ["Spine curved"] else [])
        ["Spine curved"] := by split <;> simp
    have h4 : List.Sublist (if shouldersHunchedFlag st p then ["Shoulders hunched"] else [])
        ["Shoulders hunched"] := by split <;> simp
    exact ((h1.append h2).append h3).append h4
  · intro a st p
    refine ⟨?_, ?_, ?_, ?_⟩ <;> rw [mem_checkPostureIssues] <;> simp
  · intro a st p h1 h2 h3 h4
    simp [checkPostureIssues, h1, h2, h3, h4]
  · intro a st p h
    simp only [checkPosture, h, Bool.not_true]
    by_cases he : (checkPostureIssues a st p).isEmpty
    · simp [he, List.isEmpty_iff.mp he]
    · simp only [he]
      simp [List.isEmpty_iff] at he
      simp [he]

/-- Pose landmark set for the claim C7 witness: with a constant 45-degree
angle oracle all four checks fire. -/
def c7pose : ℕ → PosePoint := fun i =>
  if i = 12 then ⟨0.6, 0.3, 0, 1⟩
  else if i = 24 then ⟨0.2, 0.9, 0, 1⟩
  else ⟨0.6, 0.4, 0, 1⟩

/-- Witness for claim C7: all four checks fire, the issue list is the full
fixed-order list, and checkPosture reports bad posture. -/
theorem claim7_witness :
    checkPostureIssues (fun _ _ => 45) c6settings c7pose =
      ["Head forward", "Uneven shoulders", "Spine curved", "Shoulders hunched"] ∧
    ((checkPosture (fun _ _ => 45) c6settings (some c7pose)).1 = true ↔
      checkPostureIssues (fun _ _ => 45) c6settings c7pose ≠ []) :=
  ⟨claim7_issue_list_shape.2.2.1 (fun _ _ => 45) c6settings c7pose
     (by norm_num [headForwardFlag, chosenEar, chosenShoulder, pickByVisibility,
        c7pose, c6settings, calculateAngle, PosePoint.xy, LEFT_EAR, RIGHT_EAR,
        LEFT_SHOULDER, RIGHT_SHOULDER])
     (by norm_num [unevenShouldersFlag, c7pose, c6settings, LEFT_SHOULDER,
        RIGHT_SHOULDER])
     (by norm_num [spineCurvedFlag, chosenEar, chosenShoulder, chosenHip,
        pickByVisibility, c7pose, c6settings, calculateAngle, PosePoint.xy,
        LEFT_EAR, RIGHT_EAR, LEFT_SHOULDER, RIGHT_SHOULDER, LEFT_HIP, RIGHT_HIP])
     (by norm_num [shouldersHunchedFlag, chosenShoulder, chosenHip, pickByVisibility,
        c7pose, c6settings, LEFT_SHOULDER, RIGHT_SHOULDER, LEFT_HIP, RIGHT_HIP]),
   claim7_issue_list_shape.2.2.2 (fun _ _ => 45) c6settings c7pose rfl⟩

/-! Touch claims about degenerate inputs and result consistency. -/

/-- Claim C8: with no face landmark set, an empty hand list, or no enabled
zone, checkFaceTouch returns no-touch and clears the recorded zone; in the
all-zones-disabled case the result is the same for every face and hand
input, so no zone geometry or distance influences it. -/
theorem claim8_no_input_no_touch :
    (∀ (st : DetectionSettings) (w h : ℚ) (hands : List (ℕ → Landmark)),
        checkFaceTouch st w h none hands = (false, none)) ∧
    (∀ (st : DetectionSettings) (w h : ℚ) (face : Option (ℕ → Landmark)),
        checkFaceTouch st w h face [] = (false, none)) ∧
    (∀ (st : DetectionSettings) (w h : ℚ) (f : ℕ → Landmark)
        (hands : List (ℕ → Landmark)),
        enabledZones st.zones = [] →
          checkFaceTouch st w h (some f) hands = (false, none)) := by
  refine ⟨fun _ _ _ _ => rfl, ?_, ?_⟩
  · intro st w h face
    cases face with
    | none => rfl
    | some f => simp [checkFaceTouch]
  · intro st w h f hands hz
    simp [checkFaceTouch, hz]

/-- Settings with every zone disabled, used by the claim C8 witness. -/
def c8settings : DetectionSettings :=
  ⟨100, ⟨false, false, false, false, false, false, false⟩⟩

/-- Witness for claim C8: with all zones disabled a present face and hand
still yield no-touch and no recorded zone. -/
theorem claim8_witness :
    checkFaceTouch c8settings 1280 720 (some (fun _ => ⟨0.5, 0.5, 0⟩))
      [fun _ => ⟨0.5, 0.5, 0⟩] = (false, none) :=
  claim8_no_input_no_touch.2.2 c8settings 1280 720 (fun _ => ⟨0.5, 0.5, 0⟩)
    [fun _ => ⟨0.5, 0.5, 0⟩] rfl

lemma find?_eq_head?_filter {α : Type} (p : α → Bool) (l : List α) :
    l.find? p = (l.filter p).head? := by
  induction l with
  | nil => rfl
  | cons a l ih =>
    cases h : p a with
    | true => rw [List.find?_cons_of_pos _ h, List.filter_cons_of_pos h]; rfl
    | false =>
      rw [List.find?_cons_of_neg _ (by simp [h]),
        List.filter_cons_of_neg (by simp [h])]
      exact ih

lemma findSome?_head?_flatMap {α β : Type} (F : α → List β) (l : List α) :
    (l.findSome? fun x => (F x).head?) = (l.flatMap F).head? := by
  induction l with
  | nil => rfl
  | cons a l ih =>
    cases hF : F a with
    | nil => simp [List.findSome?_cons, hF, ih]
    | cons b bs => simp [List.findSome?_cons, hF]

/-- The recorded zone of checkFaceTouch is the head of the ordered
enumeration of all accepted matches. -/
lemma checkFaceTouch_snd_eq (st : DetectionSettings) (w h : ℚ) (f : ℕ → Landmark)
    (hands : List (ℕ → Landmark)) :
    (checkFaceTouch st w h (some f) hands).2 =
      (acceptedMatches st w h f hands).head? := by
  simp only [checkFaceTouch, acceptedMatches]
  by_cases hh : hands.isEmpty
  · rw [List.isEmpty_iff] at hh
    subst hh
    simp
  · simp only [hh, if_false, Bool.false_eq_true]
    by_cases hz : (enabledZones st.zones).isEmpty
    · rw [List.isEmpty_iff] at hz
      rw [hz]
      simp only [List.isEmpty_nil, if_true]
      have h1 : ∀ hand : ℕ → Landmark,
          FINGERTIPS.flatMap (fun tipIdx => List.filter (fun z =>
            acceptsTouch st.sensitivity (toPixel w h (hand tipIdx))
              (zonePoints f w h z)) []) = [] := by
        intro hand; rfl
      have h2 : hands.flatMap (fun hand =>
          FINGERTIPS.flatMap (fun tipIdx => List.filter (fun z =>
            acceptsTouch st.sensitivity (toPixel w h (hand tipIdx))
              (zonePoints f w h z)) [])) = [] := by
        induction hands with
        | nil => rfl
        | cons a l ih => simp [List.flatMap_cons, h1, ih]
      rw [h2]
      rfl
    · simp only [hz, if_false, Bool.false_eq_true]
      simp only [find?_eq_head?_filter, findSome?_head?_flatMap]
      cases hres : (hands.flatMap fun hand =>
          FINGERTIPS.flatMap fun tipIdx =>
            (enabledZones st.zones).filter fun z =>
              acceptsTouch st.sensitivity (toPixel w h (hand tipIdx))
                (zonePoints f w h z)).head? <;> simp [hres]

/-- The boolean returned by checkFaceTouch is true exactly when a zone is
recorded. -/
lemma checkFaceTouch_fst_iff (st : DetectionSettings) (w h : ℚ)
    (face : Option (ℕ → Landmark)) (hands : List (ℕ → Landmark)) :
    (checkFaceTouch st w h face hands).1 = true ↔
      (checkFaceTouch st w h face hands).2 ≠ none := by
  cases face with
  | none => simp [checkFaceTouch]
  | some f =>
    simp only [checkFaceTouch]
    split
    · simp
    · split
      · simp
      · split <;> simp

/-- A zone in the enabledZones list has its settings flag set. -/
lemma zoneEnabled_of_mem_enabledZones {zs : ZoneSettings} {z : Zone}
    (h : z ∈ enabledZones zs) : zoneEnabled zs z = true := by
  cases z <;>
    simp only [enabledZones, List.mem_append, mem_ite_singleton] at h <;>
    simp_all [zoneEnabled]

/-- Claim C9: checkFaceTouch reports the first fingertip-zone pair
accepted in the enumeration order hands, then the five fingertips, then
the enabled zones in the fixed order; the recorded zone is the head of the
ordered accepted-match enumeration, and on the example input the reported
zone (mouth) is not the zone at minimal distance (nose, also accepted, at
squared distance 100 versus 900). -/
theorem claim9_first_match :
    (∀ (st : DetectionSettings) (w h : ℚ) (f : ℕ → Landmark)
        (hands : List (ℕ → Landmark)),
        (checkFaceTouch st w h (some f) hands).2 =
          (acceptedMatches st w h f hands).head?) ∧
    checkFaceTouch exSettings 100 1 (some exFace) [exHand] = (true, some Zone.mouth) ∧
    acceptsTouch 100 (toPixel 100 1 (exHand 4)) (zonePoints exFace 100 1 Zone.nose)
      = true ∧
    getMinDistanceSq (toPixel 100 1 (exHand 4)) (zonePoints exFace 100 1 Zone.nose)
      = some 100 ∧
    getMinDistanceSq (toPixel 100 1 (exHand 4)) (zonePoints exFace 100 1 Zone.mouth)
      = some 900 ∧
    (100 : ℚ) < 900 := by
  refine ⟨checkFaceTouch_snd_eq, ?_, ?_, ?_, ?_, by norm_num⟩
  · norm_num [checkFaceTouch, exSettings, enabledZones, FINGERTIPS,
      List.findSome?_cons, List.find?, acceptsTouch, sqrtLt, getMinDistanceSq,
      minDistStep, touchThreshold, avgZ, zonePoints, faceRegions, exFace, exHand,
      toPixel, List.contains, List.any]
  · norm_num [acceptsTouch, sqrtLt, getMinDistanceSq, minDistStep, touchThreshold,
      avgZ, zonePoints, faceRegions, exFace, exHand, toPixel, List.contains,
      List.any]
  · norm_num [getMinDistanceSq, minDistStep, zonePoints, faceRegions, exFace,
      exHand, toPixel, List.contains, List.any]
  · norm_num [getMinDistanceSq, minDistStep, zonePoints, faceRegions, exFace,
      exHand, toPixel, List.contains, List.any]

/-- Claim C10: after every call the returned boolean is true exactly when
the recorded zone is non-null, and a recorded zone always names a zone
enabled in the settings of the call. -/
theorem claim10_touch_zone_consistency :
    ∀ (st : DetectionSettings) (w h : ℚ) (face : Option (ℕ → Landmark))
      (hands : List (ℕ → Landmark)),
      ((checkFaceTouch st w h face hands).1 = true ↔
        (checkFaceTouch st w h face hands).2 ≠ none) ∧
      (∀ z : Zone, (checkFaceTouch st w h face hands).2 = some z →
        zoneEnabled st.zones z = true) := by
  intro st w h face hands
  refine ⟨checkFaceTouch_fst_iff st w h face hands, ?_⟩
  intro z hz
  cases face with
  | none => simp [checkFaceTouch] at hz
  | some f =>
    rw [checkFaceTouch_snd_eq] at hz
    have hmem : z ∈ acceptedMatches st w h f hands := by
      cases hacc : acceptedMatches st w h f hands with
      | nil => rw [hacc] at hz; simp at hz
      | cons a l =>
        rw [hacc] at hz
        simp only [List.head?_cons, Option.some.injEq] at hz
        subst hz
        exact List.mem_cons_self a l
    simp only [acceptedMatches, List.mem_flatMap, List.mem_filter] at hmem
    obtain ⟨hand, -, tipIdx, -, hzmem, -⟩ := hmem
    exact zoneEnabled_of_mem_enabledZones hzmem

/-- Witness for claim C10: on the example input the recorded zone is the
mouth, whose settings flag is indeed enabled. -/
theorem claim10_witness :
    zoneEnabled exSettings.zones Zone.mouth = true :=
  (claim10_touch_zone_consistency exSettings 100 1 (some exFace) [exHand]).2
    Zone.mouth
    (by norm_num [checkFaceTouch, exSettings, enabledZones, FINGERTIPS,
      List.findSome?_cons, List.find?, acceptsTouch, sqrtLt, getMinDistanceSq,
      minDistStep, touchThreshold, avgZ, zonePoints, faceRegions, exFace, exHand,
      toPixel, List.contains, List.any])

end FaceTouch
